import Mathlib

/-!
Shallow embedding of `src/index.ts` (API-Termometro): a small HTTP gateway
with three handlers (POST /sensor, GET /read/:value/:scale, DELETE /measures)
over a document store accessed by `save`, `read` and `deleteAll`.

Modelling choices:
- Timestamps are integers (seconds). `new Date()` is the parameter `now`;
  `date.setSeconds(date.getSeconds() - seconds)` is integer subtraction.
- JSON field values are `JsValue` (string / integer number / boolean / null),
  with JavaScript truthiness `jsTruthy` for the `if (data.measure)` test.
- The document store is a list of documents in insertion order; the
  storage-assigned Mongo `_id` is the field `oid`, assigned at insert time
  (parameter `newId`). The read projection drops it.
- The Mongo client is explicit state `ClientState` (connection flag plus the
  collection contents). `await client.connect()` and the database operation
  can each throw; an `Oracle` fixes whether they do and with what message
  (`none` = succeeds). Exceptions are `Except.error msg`; the try/finally of
  the source is modelled by applying `close` on every exit path.
- Each handler maps a request to `Response × ClientState`. `c.status(400)`
  on entry followed by later `c.status(...)` calls is modelled by the status
  recorded in the returned `Response` on each return path (400 unless the
  path sets it).
-/

namespace TermoApi

/-- A JSON value as far as the handlers inspect one. -/
inductive JsValue
  | str (s : String)
  | num (n : Int)
  | bool (b : Bool)
  | null
deriving DecidableEq, Repr

/-- JavaScript truthiness of a `JsValue` ("" , 0, false and null are falsy). -/
def jsTruthy : JsValue → Bool
  | JsValue.str s => s ≠ ""
  | JsValue.num n => n ≠ 0
  | JsValue.bool b => b
  | JsValue.null => false

/-- JavaScript string conversion, as used by the template literal
in the confirmation message of the create handler. -/
def jsToString : JsValue → String
  | JsValue.str s => s
  | JsValue.num n => toString n
  | JsValue.bool b => if b then "true" else "false"
  | JsValue.null => "null"

/-- A stored document: `{_id, value, date}`. `oid` models the
storage-assigned identifier `_id`. -/
structure Doc where
  oid : Nat
  value : JsValue
  date : Int
deriving DecidableEq, Repr

/-- The `Measure` type of the source: what `read` returns after the
projection `{ _id: 0 }` — no identifier field. -/
structure Measure where
  value : JsValue
  date : Int
deriving DecidableEq, Repr

/-- State of the Mongo client: whether a connection is open, and the
contents of the collection. -/
structure ClientState where
  connected : Bool
  db : List Doc
deriving DecidableEq, Repr

/-- Whether `client.connect()` and the database operation throw during one
storage call, and with what exception message (`none` = succeeds). -/
structure Oracle where
  connectErr : Option String
  opErr : Option String
deriving DecidableEq, Repr

/-- The first exception a storage call raises under oracle `o`, if any:
a `connect` failure precedes the operation failure. -/
def oracleErr (o : Oracle) : Option String :=
  match o.connectErr with
  | some e => some e
  | none => o.opErr

/-- The `finally { await client.close(); }` step. -/
def close (s : ClientState) : ClientState :=
  { s with connected := false }

/-- `save(measure)`: connect, insert `{value: measure, date: now}` (the
store assigns identifier `newId`), set `resultado = true`, close in
`finally`, return `resultado`. `resultado` stays `false` until the insert
completes, and is only returned when the try block finishes, so a returned
value is `true`; an exception propagates after `close`. -/
def save (measure : JsValue) (now : Int) (newId : Nat) (o : Oracle) (s : ClientState) :
    Except String Bool × ClientState :=
  match o.connectErr with
  | some e => (Except.error e, close s)
  | none =>
    let s1 : ClientState := { s with connected := true }
    match o.opErr with
    | some e => (Except.error e, close s1)
    | none =>
      (Except.ok true, close { s1 with db := s1.db ++ [{ oid := newId, value := measure, date := now }] })

/-- The find call of `read`: filter `{date: {$gte: dateSearch}}` over the
collection in insertion order, `limit: 100`, projection `{_id: 0}`
(drop the identifier field). -/
def dbQuery (dateSearch : Int) (db : List Doc) : List Measure :=
  ((db.filter (fun d => dateSearch ≤ d.date)).take 100).map
    (fun d => { value := d.value, date := d.date })

/-- `read(dateSearch)`: connect, run the find described by `dbQuery`, close
in `finally`, return the resulting list; an exception propagates after
`close`. -/
def read (dateSearch : Int) (o : Oracle) (s : ClientState) :
    Except String (List Measure) × ClientState :=
  match o.connectErr with
  | some e => (Except.error e, close s)
  | none =>
    let s1 : ClientState := { s with connected := true }
    match o.opErr with
    | some e => (Except.error e, close s1)
    | none => (Except.ok (dbQuery dateSearch s1.db), close s1)

/-- `deleteAll()`: connect, `deleteMany({})`, set `resultado = true`, close
in `finally`, return `resultado`; as in `save`, a returned value is `true`
and an exception propagates after `close`. -/
def deleteAll (o : Oracle) (s : ClientState) : Except String Bool × ClientState :=
  match o.connectErr with
  | some e => (Except.error e, close s)
  | none =>
    let s1 : ClientState := { s with connected := true }
    match o.opErr with
    | some e => (Except.error e, close s1)
    | none => (Except.ok true, close { s1 with db := [] })

/-- `secondsToDate(seconds)`: current server time minus `seconds`. -/
def secondsToDate (seconds : Int) (now : Int) : Int :=
  now - seconds

/-- Status code and JSON body of a handler response. -/
inductive RespBody
  | msg (message : String)
  | measures (ms : List Measure)
deriving DecidableEq, Repr

/-- An HTTP response as the handlers build one: a status code (the last
`c.status(...)` before the return) and the JSON body. -/
structure Response where
  status : Nat
  body : RespBody
deriving DecidableEq, Repr

/-- The POST /sensor handler over an injected storage function `saveFn`
(the source calls `save`; see `postSensor`). The request body is the result
of `await c.req.json()`: `Except.error e` if parsing throws, otherwise the
`measure` field of the parsed object (`none` = absent, i.e. undefined).
Status is set to 400 on entry; 202 on successful save, 500 on
`save` returning false; the catch branch leaves the status at 400. -/
def postSensorGen (saveFn : JsValue → ClientState → Except String Bool × ClientState)
    (body : Except String (Option JsValue)) (s : ClientState) : Response × ClientState :=
  match body with
  | Except.error e => (⟨400, RespBody.msg ("Error not expected: " ++ e)⟩, s)
  | Except.ok data =>
    match data with
    | some m =>
      if jsTruthy m then
        match saveFn m s with
        | (Except.ok true, s1) => (⟨202, RespBody.msg ("Saved: " ++ jsToString m)⟩, s1)
        | (Except.ok false, s1) => (⟨500, RespBody.msg "Failed to saved data"⟩, s1)
        | (Except.error e, s1) => (⟨400, RespBody.msg ("Error not expected: " ++ e)⟩, s1)
      else (⟨400, RespBody.msg "Please send a valid JSON"⟩, s)
    | none => (⟨400, RespBody.msg "Please send a valid JSON"⟩, s)

/-- The POST /sensor handler of the source: `postSensorGen` applied to the
real `save`. -/
def postSensor (body : Except String (Option JsValue)) (now : Int) (newId : Nat)
    (o : Oracle) (s : ClientState) : Response × ClientState :=
  postSensorGen (fun m s2 => save m now newId o s2) body s

/-- JavaScript `parseInt` applied to a string (radix argument omitted):
skip leading whitespace, read an optional sign, then either a `0x`/`0X`
hexadecimal literal or the longest run of leading decimal digits; `none`
models `NaN` (no digits). -/
def parseIntJS (s : String) : Option Int :=
  let cs := s.data.dropWhile (fun c => c = ' ' ∨ c = '\t' ∨ c = '\n' ∨ c = '\r')
  let signed : Int × List Char :=
    match cs with
    | '-' :: r => (-1, r)
    | '+' :: r => (1, r)
    | r => (1, r)
  let sign := signed.1
  match signed.2 with
  | '0' :: 'x' :: r =>
    let ds := r.takeWhile (fun c => c.isDigit ∨ ('a' ≤ c ∧ c ≤ 'f') ∨ ('A' ≤ c ∧ c ≤ 'F'))
    if ds.isEmpty then none
    else some (sign * (ds.foldl (fun a c =>
      a * 16 + (if c.isDigit then c.toNat - 48
                else if 'a' ≤ c ∧ c ≤ 'f' then c.toNat - 87 else c.toNat - 55)) 0 : Nat))
  | '0' :: 'X' :: r =>
    let ds := r.takeWhile (fun c => c.isDigit ∨ ('a' ≤ c ∧ c ≤ 'f') ∨ ('A' ≤ c ∧ c ≤ 'F'))
    if ds.isEmpty then none
    else some (sign * (ds.foldl (fun a c =>
      a * 16 + (if c.isDigit then c.toNat - 48
                else if 'a' ≤ c ∧ c ≤ 'f' then c.toNat - 87 else c.toNat - 55)) 0 : Nat))
  | r =>
    let ds := r.takeWhile Char.isDigit
    if ds.isEmpty then none
    else some (sign * (ds.foldl (fun a c => a * 10 + (c.toNat - 48)) 0 : Nat))

/-- The GET /read/:value/:scale handler. `value` is
`parseInt(c.req.param("value"))` (`none` = NaN); the guard
`!value || !scale || value <= 0` rejects NaN, 0, an empty scale and
non-positive values with 400. The switch on `scale` maps hours/mins/secs to
seconds (the if-chain mirrors its cases, the final branch its default),
computes the cutoff with `secondsToDate` and calls `read`; 200 on success,
and the catch branch leaves the status at 400. -/
def getRead (valueParam scaleParam : String) (now : Int) (o : Oracle) (s : ClientState) :
    Response × ClientState :=
  match parseIntJS valueParam with
  | none => (⟨400, RespBody.msg "Please send a valid value and scale"⟩, s)
  | some v =>
    if v = 0 ∨ scaleParam = "" ∨ v ≤ 0 then
      (⟨400, RespBody.msg "Please send a valid value and scale"⟩, s)
    else
      let run := fun (seconds : Int) =>
        match read (secondsToDate seconds now) o s with
        | (Except.ok ms, s1) => ((⟨200, RespBody.measures ms⟩ : Response), s1)
        | (Except.error e, s1) =>
          ((⟨400, RespBody.msg ("Error not expected: " ++ e)⟩ : Response), s1)
      if scaleParam = "hours" then run (v * 3600)
      else if scaleParam = "mins" then run (v * 60)
      else if scaleParam = "secs" then run v
      else (⟨400, RespBody.msg "Not implemented"⟩, s)

/-- The DELETE /measures handler over an injected storage function
`deleteFn` (the source calls `deleteAll`; see `deleteMeasures`). Status 400
on entry; 200 on successful delete, 500 on `deleteAll` returning false; the
catch branch leaves the status at 400. -/
def deleteMeasuresGen (deleteFn : ClientState → Except String Bool × ClientState)
    (s : ClientState) : Response × ClientState :=
  match deleteFn s with
  | (Except.ok true, s1) => (⟨200, RespBody.msg "Deleted"⟩, s1)
  | (Except.ok false, s1) => (⟨500, RespBody.msg "Failed to delete data"⟩, s1)
  | (Except.error e, s1) => (⟨400, RespBody.msg ("Error not expected: " ++ e)⟩, s1)

/-- The DELETE /measures handler of the source: `deleteMeasuresGen` applied
to the real `deleteAll`. -/
def deleteMeasures (o : Oracle) (s : ClientState) : Response × ClientState :=
  deleteMeasuresGen (fun s2 => deleteAll o s2) s

/-! ### Helper lemmas -/

theorem oracleErr_eq_none {o : Oracle} (h : oracleErr o = none) :
    o.connectErr = none ∧ o.opErr = none := by
  obtain ⟨ce, oe⟩ := o
  cases ce <;> simp_all [oracleErr]

theorem save_ok (m : JsValue) (now : Int) (nid : Nat) (o : Oracle) (s : ClientState)
    (h : oracleErr o = none) :
    save m now nid o s = (Except.ok true, ⟨false, s.db ++ [⟨nid, m, now⟩]⟩) := by
  obtain ⟨hc, hp⟩ := oracleErr_eq_none h
  simp [save, hc, hp, close]

theorem save_err (m : JsValue) (now : Int) (nid : Nat) (o : Oracle) (s : ClientState)
    (e : String) (h : oracleErr o = some e) :
    save m now nid o s = (Except.error e, ⟨false, s.db⟩) := by
  obtain ⟨ce, oe⟩ := o
  cases ce <;> simp_all [oracleErr, save, close]

theorem read_ok (d : Int) (o : Oracle) (s : ClientState) (h : oracleErr o = none) :
    read d o s = (Except.ok (dbQuery d s.db), ⟨false, s.db⟩) := by
  obtain ⟨hc, hp⟩ := oracleErr_eq_none h
  simp [read, hc, hp, close]

theorem read_err (d : Int) (o : Oracle) (s : ClientState) (e : String)
    (h : oracleErr o = some e) :
    read d o s = (Except.error e, ⟨false, s.db⟩) := by
  obtain ⟨ce, oe⟩ := o
  cases ce <;> simp_all [oracleErr, read, close]

theorem deleteAll_ok (o : Oracle) (s : ClientState) (h : oracleErr o = none) :
    deleteAll o s = (Except.ok true, ⟨false, []⟩) := by
  obtain ⟨hc, hp⟩ := oracleErr_eq_none h
  simp [deleteAll, hc, hp, close]

theorem deleteAll_err (o : Oracle) (s : ClientState) (e : String)
    (h : oracleErr o = some e) :
    deleteAll o s = (Except.error e, ⟨false, s.db⟩) := by
  obtain ⟨ce, oe⟩ := o
  cases ce <;> simp_all [oracleErr, deleteAll, close]

theorem dbQuery_length (d : Int) (db : List Doc) : (dbQuery d db).length ≤ 100 := by
  simp only [dbQuery, List.length_map, List.length_take]
  omega

theorem dbQuery_mem (d : Int) (db : List Doc) (m : Measure) (hm : m ∈ dbQuery d db) :
    d ≤ m.date ∧ ∃ dc ∈ db, m.value = dc.value ∧ m.date = dc.date := by
  unfold dbQuery at hm
  obtain ⟨dc, hdc, rfl⟩ := List.mem_map.mp hm
  have h1 : dc ∈ db.filter (fun d2 => d ≤ d2.date) := List.mem_of_mem_take hdc
  have h2 := List.mem_filter.mp h1
  exact ⟨by simpa using h2.2, dc, h2.1, rfl, rfl⟩

theorem dbQuery_nil (d : Int) (db : List Doc) (h : ∀ dc ∈ db, dc.date < d) :
    dbQuery d db = [] := by
  have hf : db.filter (fun dc => d ≤ dc.date) = [] := by
    rw [List.filter_eq_nil_iff]
    intro a ha
    simpa using not_le.mpr (h a ha)
  simp [dbQuery, hf]

theorem getRead_valid (vp sp : String) (now v k : Int) (o : Oracle) (s : ClientState)
    (hv : parseIntJS vp = some v) (hpos : 0 < v)
    (hk : (sp = "hours" ∧ k = v * 3600) ∨ (sp = "mins" ∧ k = v * 60) ∨ (sp = "secs" ∧ k = v))
    (ho : oracleErr o = none) :
    getRead vp sp now o s =
      (⟨200, RespBody.measures (dbQuery (now - k) s.db)⟩, ⟨false, s.db⟩) := by
  rcases hk with ⟨h1, h2⟩ | ⟨h1, h2⟩ | ⟨h1, h2⟩ <;> subst h1 <;> subst h2 <;>
    simp [getRead, hv, hpos.ne', not_le.mpr hpos, read_ok _ _ _ ho, secondsToDate]

theorem getRead_notImplemented (vp sp : String) (now : Int) (o : Oracle) (s : ClientState)
    (v : Int) (hv : parseIntJS vp = some v) (hpos : 0 < v)
    (h0 : sp ≠ "") (h1 : sp ≠ "hours") (h2 : sp ≠ "mins") (h3 : sp ≠ "secs") :
    getRead vp sp now o s = (⟨400, RespBody.msg "Not implemented"⟩, s) := by
  simp [getRead, hv, hpos.ne', not_le.mpr hpos, h0, h1, h2, h3]

/-! ### Claims -/

/-- Claim C1: for every cutoff timestamp, a successful `read` returns at
most 100 measurements, each with `date >= cutoff`, each the projection of a
stored document with the identifier field dropped (a `Measure` carries only
`value` and `date`), and the empty list when no document matches. -/
theorem C1_read_invariants (cutoff : Int) (o : Oracle) (s : ClientState) (ms : List Measure)
    (h : (read cutoff o s).1 = Except.ok ms) :
    ms.length ≤ 100 ∧
    (∀ m ∈ ms, cutoff ≤ m.date) ∧
    (∀ m ∈ ms, ∃ dc ∈ s.db, m.value = dc.value ∧ m.date = dc.date) ∧
    ((∀ dc ∈ s.db, dc.date < cutoff) → ms = []) := by
  have hms : ms = dbQuery cutoff s.db := by
    obtain ⟨ce, oe⟩ := o
    cases ce <;> cases oe <;> simp_all [read, close]
  subst hms
  exact ⟨dbQuery_length _ _, fun m hm => (dbQuery_mem _ _ _ hm).1,
    fun m hm => (dbQuery_mem _ _ _ hm).2, dbQuery_nil _ _⟩

/-- Witness for C1 at a concrete state with one matching document. -/
theorem C1_read_invariants_witness :
    (read 0 ⟨none, none⟩ ⟨false, [⟨1, JsValue.num 5, 10⟩]⟩).1 =
      Except.ok [({ value := JsValue.num 5, date := 10 } : Measure)] ∧
    (([({ value := JsValue.num 5, date := 10 } : Measure)]).length ≤ 100 ∧
     (∀ m ∈ [({ value := JsValue.num 5, date := 10 } : Measure)], (0 : Int) ≤ m.date) ∧
     (∀ m ∈ [({ value := JsValue.num 5, date := 10 } : Measure)],
        ∃ dc ∈ (ClientState.mk false [⟨1, JsValue.num 5, 10⟩]).db,
          m.value = dc.value ∧ m.date = dc.date) ∧
     ((∀ dc ∈ (ClientState.mk false [⟨1, JsValue.num 5, 10⟩]).db, dc.date < (0 : Int)) →
        [({ value := JsValue.num 5, date := 10 } : Measure)] = [])) :=
  ⟨by rfl, C1_read_invariants 0 ⟨none, none⟩ ⟨false, [⟨1, JsValue.num 5, 10⟩]⟩ _ (by rfl)⟩

/-- Claim C2: for a valid read request (positive integer value, scale in
hours/mins/secs) the handler queries the store at cutoff `now - seconds`
with seconds = value*3600 / value*60 / value respectively; for any other
non-empty scale string it returns 400 "Not implemented" leaving the client
state untouched (no Storage Accessor call), whatever the oracle. -/
theorem C2_read_scale_mapping (vp sp : String) (now v : Int) (o : Oracle) (s : ClientState)
    (hv : parseIntJS vp = some v) (hpos : 0 < v) :
    (∀ k : Int,
      (sp = "hours" ∧ k = v * 3600) ∨ (sp = "mins" ∧ k = v * 60) ∨ (sp = "secs" ∧ k = v) →
      oracleErr o = none →
      getRead vp sp now o s =
        (⟨200, RespBody.measures (dbQuery (now - k) s.db)⟩, ⟨false, s.db⟩)) ∧
    (sp ≠ "" → sp ≠ "hours" → sp ≠ "mins" → sp ≠ "secs" →
      getRead vp sp now o s = (⟨400, RespBody.msg "Not implemented"⟩, s)) :=
  ⟨fun k hk ho => getRead_valid vp sp now v k o s hv hpos hk ho,
   fun h0 h1 h2 h3 => getRead_notImplemented vp sp now o s v hv hpos h0 h1 h2 h3⟩

/-- Witness for C2: the hours mapping at value 2 and the rejection of an
unknown scale, at concrete inputs. -/
theorem C2_read_scale_mapping_witness :
    (parseIntJS "2" = some 2 ∧ (0 : Int) < 2) ∧
    getRead "2" "hours" 10000 ⟨none, none⟩ ⟨false, [⟨1, JsValue.num 7, 9000⟩]⟩ =
      (⟨200, RespBody.measures (dbQuery (10000 - 2 * 3600) [⟨1, JsValue.num 7, 9000⟩])⟩,
       ⟨false, [⟨1, JsValue.num 7, 9000⟩]⟩) ∧
    getRead "2" "weeks" 10000 ⟨none, none⟩ ⟨false, []⟩ =
      (⟨400, RespBody.msg "Not implemented"⟩, ⟨false, []⟩) := by
  refine ⟨⟨by rfl, by decide⟩, ?_, ?_⟩
  · exact (C2_read_scale_mapping "2" "hours" 10000 2 ⟨none, none⟩
      ⟨false, [⟨1, JsValue.num 7, 9000⟩]⟩ (by rfl) (by decide)).1
      (2 * 3600) (Or.inl ⟨rfl, rfl⟩) (by rfl)
  · exact (C2_read_scale_mapping "2" "weeks" 10000 2 ⟨none, none⟩ ⟨false, []⟩
      (by rfl) (by decide)).2 (by decide) (by decide) (by decide) (by decide)

/-- Claim C3: the create handler calls `save` on a body with a (truthy)
`measure` field — 202 "Saved: <measure>" when `save` returns true (the
document is inserted), 500 "Failed to saved data" when the save function
returns false — and answers "Please send a valid JSON" with the entry
status 400 when the field is absent. -/
theorem C3_post_sensor (now : Int) (nid : Nat) (o : Oracle) (s : ClientState) (m : JsValue) :
    (jsTruthy m = true → oracleErr o = none →
      postSensor (Except.ok (some m)) now nid o s =
        (⟨202, RespBody.msg ("Saved: " ++ jsToString m)⟩, ⟨false, s.db ++ [⟨nid, m, now⟩]⟩)) ∧
    (∀ (saveFn : JsValue → ClientState → Except String Bool × ClientState) (s1 : ClientState),
      jsTruthy m = true → saveFn m s = (Except.ok false, s1) →
      postSensorGen saveFn (Except.ok (some m)) s =
        (⟨500, RespBody.msg "Failed to saved data"⟩, s1)) ∧
    postSensor (Except.ok none) now nid o s =
      (⟨400, RespBody.msg "Please send a valid JSON"⟩, s) := by
  refine ⟨fun ht ho => ?_, fun saveFn s1 ht hs => ?_, ?_⟩
  · simp [postSensor, postSensorGen, ht, save_ok _ _ _ _ _ ho]
  · simp [postSensorGen, ht, hs]
  · simp [postSensor, postSensorGen]

/-- Witness for C3: a saved measure, a save function answering false, and
an absent measure field, at concrete inputs. -/
theorem C3_post_sensor_witness :
    (jsTruthy (JsValue.str "23.5") = true ∧
     postSensor (Except.ok (some (JsValue.str "23.5"))) 50 3 ⟨none, none⟩ ⟨false, []⟩ =
       (⟨202, RespBody.msg ("Saved: " ++ jsToString (JsValue.str "23.5"))⟩,
        ⟨false, [⟨3, JsValue.str "23.5", 50⟩]⟩)) ∧
    postSensorGen (fun _ s2 => (Except.ok false, s2))
        (Except.ok (some (JsValue.str "23.5"))) ⟨false, []⟩ =
      (⟨500, RespBody.msg "Failed to saved data"⟩, ⟨false, []⟩) ∧
    postSensor (Except.ok none) 50 3 ⟨none, none⟩ ⟨false, []⟩ =
      (⟨400, RespBody.msg "Please send a valid JSON"⟩, ⟨false, []⟩) := by
  have h := C3_post_sensor 50 3 ⟨none, none⟩ ⟨false, []⟩ (JsValue.str "23.5")
  exact ⟨⟨by decide, h.1 (by decide) rfl⟩,
    h.2.1 (fun _ s2 => (Except.ok false, s2)) ⟨false, []⟩ (by decide) rfl, h.2.2⟩

/-- Claim C4: on any handler, an unexpected exception (JSON parsing, or a
storage call throwing) yields the body "Error not expected: <description>"
with the status set before the exception — always 400, since no handler
advances the status before a throwing step — never a dedicated 500. -/
theorem C4_unexpected_exception_status (now : Int) (nid : Nat) (o : Oracle) (s : ClientState)
    (e : String) :
    (postSensor (Except.error e) now nid o s =
      (⟨400, RespBody.msg ("Error not expected: " ++ e)⟩, s)) ∧
    (∀ m : JsValue, jsTruthy m = true → oracleErr o = some e →
      postSensor (Except.ok (some m)) now nid o s =
        (⟨400, RespBody.msg ("Error not expected: " ++ e)⟩, ⟨false, s.db⟩)) ∧
    (∀ (vp sp : String) (v : Int), parseIntJS vp = some v → 0 < v →
      (sp = "hours" ∨ sp = "mins" ∨ sp = "secs") → oracleErr o = some e →
      getRead vp sp now o s =
        (⟨400, RespBody.msg ("Error not expected: " ++ e)⟩, ⟨false, s.db⟩)) ∧
    (oracleErr o = some e →
      deleteMeasures o s = (⟨400, RespBody.msg ("Error not expected: " ++ e)⟩, ⟨false, s.db⟩)) := by
  refine ⟨by simp [postSensor, postSensorGen], fun m ht ho => ?_,
    fun vp sp v hv hpos hsp ho => ?_, fun ho => ?_⟩
  · simp [postSensor, postSensorGen, ht, save_err _ _ _ _ _ _ ho]
  · rcases hsp with h1 | h1 | h1 <;> subst h1 <;>
      simp [getRead, hv, hpos.ne', not_le.mpr hpos, read_err _ _ _ _ ho]
  · simp [deleteMeasures, deleteMeasuresGen, deleteAll_err _ _ _ ho]

/-- Witness for C4: the exception branch of each handler at concrete
inputs — a parse failure and a throwing storage operation. -/
theorem C4_unexpected_exception_status_witness :
    (postSensor (Except.error "parse fail") 0 0 ⟨none, none⟩ ⟨false, []⟩ =
      (⟨400, RespBody.msg ("Error not expected: " ++ "parse fail")⟩, ⟨false, []⟩)) ∧
    (postSensor (Except.ok (some (JsValue.str "21"))) 0 0 ⟨none, some "boom"⟩ ⟨false, []⟩ =
      (⟨400, RespBody.msg ("Error not expected: " ++ "boom")⟩, ⟨false, []⟩)) ∧
    (getRead "2" "hours" 0 ⟨none, some "boom"⟩ ⟨false, []⟩ =
      (⟨400, RespBody.msg ("Error not expected: " ++ "boom")⟩, ⟨false, []⟩)) ∧
    (deleteMeasures ⟨none, some "boom"⟩ ⟨false, []⟩ =
      (⟨400, RespBody.msg ("Error not expected: " ++ "boom")⟩, ⟨false, []⟩)) := by
  have h1 := C4_unexpected_exception_status 0 0 ⟨none, none⟩ ⟨false, []⟩ "parse fail"
  have h2 := C4_unexpected_exception_status 0 0 ⟨none, some "boom"⟩ ⟨false, []⟩ "boom"
  exact ⟨h1.1, h2.2.1 (JsValue.str "21") (by decide) rfl,
    h2.2.2.1 "2" "hours" 2 (by decide) (by decide) (Or.inl rfl) rfl, h2.2.2.2 rfl⟩

/-- Claim C5: a read request whose value parameter parses to NaN (missing
or non-numeric) or to a non-positive number is answered 400 with the client
state untouched — before any cutoff translation or storage access — for
every scale parameter and every oracle. -/
theorem C5_read_invalid_value (vp sp : String) (now : Int) (o : Oracle) (s : ClientState)
    (h : parseIntJS vp = none ∨ ∃ v, parseIntJS vp = some v ∧ v ≤ 0) :
    getRead vp sp now o s = (⟨400, RespBody.msg "Please send a valid value and scale"⟩, s) := by
  rcases h with h | ⟨v, hv, hle⟩
  · simp [getRead, h]
  · simp [getRead, hv, hle]

/-- Witness for C5 at the non-numeric value "abc". -/
theorem C5_read_invalid_value_witness :
    (parseIntJS "abc" = none ∨ ∃ v, parseIntJS "abc" = some v ∧ v ≤ 0) ∧
    getRead "abc" "hours" 0 ⟨none, none⟩ ⟨false, []⟩ =
      (⟨400, RespBody.msg "Please send a valid value and scale"⟩, ⟨false, []⟩) :=
  ⟨Or.inl (by decide),
   C5_read_invalid_value "abc" "hours" 0 ⟨none, none⟩ ⟨false, []⟩ (Or.inl (by decide))⟩

/-- Counterexample to C6 as stated: when the delete operation throws
("boom"), `deleteAll` surfaces an exception — not the boolean false — and
the delete handler answers with status 400 ("Error not expected: boom"),
not with the 500 the claim requires for storage operation failures. -/
theorem C6_counterexample :
    (deleteAll ⟨none, some "boom"⟩ ⟨false, []⟩).1 = Except.error "boom" ∧
    deleteMeasures ⟨none, some "boom"⟩ ⟨false, []⟩ =
      (⟨400, RespBody.msg "Error not expected: boom"⟩, ⟨false, []⟩) :=
  ⟨rfl, by decide⟩

/-- Claim C6 as amended: the delete handler returns 200 "Deleted" when
`deleteAll` returns true and 500 "Failed to delete data" when the delete
function returns false; but storage operation failures surface as
exceptions (never as boolean false), handled by the unexpected-exception
branch at status 400. -/
theorem C6_delete_handler (o : Oracle) (s : ClientState) (e : String) :
    (oracleErr o = none →
      deleteMeasures o s = (⟨200, RespBody.msg "Deleted"⟩, ⟨false, []⟩)) ∧
    (∀ (deleteFn : ClientState → Except String Bool × ClientState) (s1 : ClientState),
      deleteFn s = (Except.ok false, s1) →
      deleteMeasuresGen deleteFn s = (⟨500, RespBody.msg "Failed to delete data"⟩, s1)) ∧
    (oracleErr o = some e →
      (deleteAll o s).1 = Except.error e ∧
      deleteMeasures o s = (⟨400, RespBody.msg ("Error not expected: " ++ e)⟩, ⟨false, s.db⟩)) := by
  refine ⟨fun ho => ?_, fun deleteFn s1 hd => ?_, fun ho => ⟨?_, ?_⟩⟩
  · simp [deleteMeasures, deleteMeasuresGen, deleteAll_ok _ _ ho]
  · simp [deleteMeasuresGen, hd]
  · simp [deleteAll_err _ _ _ ho]
  · simp [deleteMeasures, deleteMeasuresGen, deleteAll_err _ _ _ ho]

/-- Witness for C6 (amended): the success branch, a delete function
answering false, and a throwing delete, at concrete inputs. -/
theorem C6_delete_handler_witness :
    deleteMeasures ⟨none, none⟩ ⟨false, [⟨1, JsValue.num 7, 9⟩]⟩ =
      (⟨200, RespBody.msg "Deleted"⟩, ⟨false, []⟩) ∧
    deleteMeasuresGen (fun s2 => (Except.ok false, s2)) ⟨false, []⟩ =
      (⟨500, RespBody.msg "Failed to delete data"⟩, ⟨false, []⟩) ∧
    ((deleteAll ⟨some "down", none⟩ ⟨false, []⟩).1 = Except.error "down" ∧
     deleteMeasures ⟨some "down", none⟩ ⟨false, []⟩ =
       (⟨400, RespBody.msg ("Error not expected: " ++ "down")⟩, ⟨false, []⟩)) :=
  ⟨(C6_delete_handler ⟨none, none⟩ ⟨false, [⟨1, JsValue.num 7, 9⟩]⟩ "x").1 rfl,
   (C6_delete_handler ⟨none, none⟩ ⟨false, []⟩ "x").2.1
     (fun s2 => (Except.ok false, s2)) ⟨false, []⟩ rfl,
   (C6_delete_handler ⟨some "down", none⟩ ⟨false, []⟩ "down").2.2 rfl⟩

/-- Claim C7: every invocation of `save`, `read` and `deleteAll` ends with
the connection closed — on the success path and when connect or the
database operation throws — and the exception then propagates to the
caller. -/
theorem C7_connection_closed (m : JsValue) (now d : Int) (nid : Nat) (o : Oracle)
    (s : ClientState) (e : String) :
    ((save m now nid o s).2.connected = false ∧
     (read d o s).2.connected = false ∧
     (deleteAll o s).2.connected = false) ∧
    (oracleErr o = some e →
      (save m now nid o s).1 = Except.error e ∧
      (read d o s).1 = Except.error e ∧
      (deleteAll o s).1 = Except.error e) := by
  obtain ⟨ce, oe⟩ := o
  constructor
  · cases ce <;> cases oe <;> simp [save, read, deleteAll, close]
  · intro ho
    cases ce <;> cases oe <;> simp_all [oracleErr, save, read, deleteAll, close]

/-- Witness for C7 at a throwing database operation, starting from an open
connection. -/
theorem C7_connection_closed_witness :
    oracleErr ⟨none, some "err"⟩ = some "err" ∧
    ((save (JsValue.str "x") 0 0 ⟨none, some "err"⟩ ⟨true, []⟩).1 = Except.error "err" ∧
     (read 0 ⟨none, some "err"⟩ ⟨true, []⟩).1 = Except.error "err" ∧
     (deleteAll ⟨none, some "err"⟩ ⟨true, []⟩).1 = Except.error "err") ∧
    ((save (JsValue.str "x") 0 0 ⟨none, some "err"⟩ ⟨true, []⟩).2.connected = false ∧
     (read 0 ⟨none, some "err"⟩ ⟨true, []⟩).2.connected = false ∧
     (deleteAll ⟨none, some "err"⟩ ⟨true, []⟩).2.connected = false) :=
  ⟨rfl,
   (C7_connection_closed (JsValue.str "x") 0 0 0 ⟨none, some "err"⟩ ⟨true, []⟩ "err").2 rfl,
   (C7_connection_closed (JsValue.str "x") 0 0 0 ⟨none, some "err"⟩ ⟨true, []⟩ "err").1⟩

/-- Claim C8: `save` and `deleteAll` either return true or throw — their
result is fully determined by the oracle and is never the boolean false —
so the 500 branches of the create and delete handlers are unreachable:
those handlers only ever answer 202/400 and 200/400 respectively. -/
theorem C8_save_delete_never_false (m : JsValue) (now : Int) (nid : Nat) (o : Oracle)
    (s : ClientState) (b : Except String (Option JsValue)) :
    ((save m now nid o s).1 = match oracleErr o with
      | none => Except.ok true
      | some e => Except.error e) ∧
    ((deleteAll o s).1 = match oracleErr o with
      | none => Except.ok true
      | some e => Except.error e) ∧
    ((postSensor b now nid o s).1.status = 202 ∨ (postSensor b now nid o s).1.status = 400) ∧
    ((deleteMeasures o s).1.status = 200 ∨ (deleteMeasures o s).1.status = 400) := by
  obtain ⟨ce, oe⟩ := o
  refine ⟨?_, ?_, ?_, ?_⟩
  · cases ce <;> cases oe <;> simp [save, close, oracleErr]
  · cases ce <;> cases oe <;> simp [deleteAll, close, oracleErr]
  · rcases b with e | data
    · simp [postSensor, postSensorGen]
    · rcases data with _ | mv
      · simp [postSensor, postSensorGen]
      · by_cases ht : jsTruthy mv
        · cases ce <;> cases oe <;> simp [postSensor, postSensorGen, save, close, ht]
        · simp [postSensor, postSensorGen, ht]
  · cases ce <;> cases oe <;> simp [deleteMeasures, deleteMeasuresGen, deleteAll, close]

/-- Claim C9: a create request whose `measure` field holds a falsy value
(empty string, 0, false or null) is answered exactly like an absent field —
400 "Please send a valid JSON" — with the client state untouched, so `save`
is never called. -/
theorem C9_falsy_measure (now : Int) (nid : Nat) (o : Oracle) (s : ClientState) (v : JsValue)
    (h : jsTruthy v = false) :
    postSensor (Except.ok (some v)) now nid o s =
      (⟨400, RespBody.msg "Please send a valid JSON"⟩, s) ∧
    (jsTruthy (JsValue.str "") = false ∧ jsTruthy (JsValue.num 0) = false ∧
     jsTruthy (JsValue.bool false) = false ∧ jsTruthy JsValue.null = false) :=
  ⟨by simp [postSensor, postSensorGen, h], by decide, by decide, by decide, by decide⟩

/-- Witness for C9 at the empty-string measure. -/
theorem C9_falsy_measure_witness :
    jsTruthy (JsValue.str "") = false ∧
    postSensor (Except.ok (some (JsValue.str ""))) 0 0 ⟨none, none⟩ ⟨false, []⟩ =
      (⟨400, RespBody.msg "Please send a valid JSON"⟩, ⟨false, []⟩) :=
  ⟨by decide, (C9_falsy_measure 0 0 ⟨none, none⟩ ⟨false, []⟩ (JsValue.str "") (by decide)).1⟩

/-- Claim C10: a value parameter that is not itself an integer but starts
with a positive integer — "1.5" parses to 1, "2abc" to 2 — is accepted by
the read handler, which uses that integer for the time-window computation
instead of rejecting with 400. -/
theorem C10_fractional_value_accepted (vp sp : String) (now v : Int) (o : Oracle)
    (s : ClientState) (hv : parseIntJS vp = some v) (hpos : 0 < v) :
    parseIntJS "1.5" = some 1 ∧ parseIntJS "2abc" = some 2 ∧
    (∀ k : Int,
      (sp = "hours" ∧ k = v * 3600) ∨ (sp = "mins" ∧ k = v * 60) ∨ (sp = "secs" ∧ k = v) →
      oracleErr o = none →
      getRead vp sp now o s =
        (⟨200, RespBody.measures (dbQuery (now - k) s.db)⟩, ⟨false, s.db⟩)) :=
  ⟨by decide, by decide, fun k hk ho => getRead_valid vp sp now v k o s hv hpos hk ho⟩

/-- Witness for C10 at the value parameter "1.5", accepted as 1 second. -/
theorem C10_fractional_value_accepted_witness :
    (parseIntJS "1.5" = some 1 ∧ (0 : Int) < 1) ∧
    getRead "1.5" "secs" 100 ⟨none, none⟩ ⟨false, [⟨1, JsValue.num 7, 99⟩]⟩ =
      (⟨200, RespBody.measures (dbQuery (100 - 1) [⟨1, JsValue.num 7, 99⟩])⟩,
       ⟨false, [⟨1, JsValue.num 7, 99⟩]⟩) :=
  ⟨⟨by decide, by decide⟩,
   (C10_fractional_value_accepted "1.5" "secs" 100 1 ⟨none, none⟩
     ⟨false, [⟨1, JsValue.num 7, 99⟩]⟩ (by decide) (by decide)).2.2 1
     (Or.inr (Or.inr ⟨rfl, rfl⟩)) rfl⟩

end TermoApi
